import Mathlib

/-!
Shallow embedding of the WebCrawler repository (src/crawler.py, src/main.py)
and proofs about the claims of its specification.

Python strings are modelled as Lean `String`, Python `None`-able values as
`Option`, machine time (datetime) as rational seconds, raised exceptions as
`Except PyErr`, and the file system as a key-to-record map.
-/

/-- Exceptions that the embedded code can raise.  `nameError n` models Python's
`NameError: name 'n' is not defined`; `typeErr` an argument-binding `TypeError`;
`connectionError` a raised exception inside an HTTP GET; `persistenceError` an
OS error raised while writing the record file. -/
inductive PyErr where
  | nameError (n : String)
  | typeErr
  | connectionError
  | persistenceError
  deriving DecidableEq, Repr

/-- Whether `sub` is a prefix of `hay` (character lists). -/
def startsWithChars : List Char → List Char → Bool
  | [], _ => true
  | _ :: _, [] => false
  | a :: s, b :: h => a == b && startsWithChars s h

/-- Whether `sub` occurs as a contiguous substring of `hay` (character
lists). -/
def hasSubChars : List Char → List Char → Bool
  | sub, [] => startsWithChars sub []
  | sub, b :: t => startsWithChars sub (b :: t) || hasSubChars sub t

/-- Python's substring test `sub in hay`. -/
def strContains (hay sub : String) : Bool :=
  hasSubChars sub.toList hay.toList

/-- Lowercasing of one character as Python's `str.lower` does on the ASCII
range (the range all four allowlist markers live in). -/
def lowerChar (c : Char) : Char :=
  if 65 ≤ c.toNat ∧ c.toNat ≤ 90 then Char.ofNat (c.toNat + 32) else c

/-- Python `s.lower()` (ASCII range). -/
def pyLower (s : String) : String :=
  String.mk (s.toList.map lowerChar)

/-! ## DataHandler (crawler.py lines 46-110) -/

/-- The dataclass `PersonData` (crawler.py lines 52-59).  Every field except
`name` defaults to Python `None`, modelled as `Option.none` (including the two
list fields, whose dataclass default is `None`, not `[]`). -/
structure PersonData where
  name : String
  professional_title : Option String := none
  company : Option String := none
  education : Option (List String) := none
  public_links : Option (List String) := none
  last_updated : Option String := none
  deriving DecidableEq, Repr

/-- The allowlist of trusted-domain markers in `DataHandler.is_safe_link`
(crawler.py lines 104-109). -/
def allowed_domains : List String :=
  ["linkedin.com/in/", "github.com/", "scholar.google.com/", "twitter.com/"]

/-- `DataHandler.is_safe_link` (crawler.py lines 102-110):
`any(domain in link.lower() for domain in allowed_domains)`. -/
def is_safe_link (link : String) : Bool :=
  allowed_domains.any (fun domain => strContains (pyLower link) domain)

/-- How a Python f-string renders an `Optional[str]` field: `None` prints as
the four-character string `"None"`. -/
def fmtOpt : Option String → String
  | none => "None"
  | some s => s

/-! ### SHA-256 (the `hashlib.sha256` call in `generate_id`)

A byte-level implementation of FIPS 180-4 SHA-256 over `List Nat`
(each element a byte), with 32-bit words as `Nat` reduced mod `2 ^ 32`. -/

/-- Truncated 32-bit addition. -/
def add32 (a b : Nat) : Nat := (a + b) % 2 ^ 32

/-- Right rotation of a 32-bit word by `k` bits. -/
def rotr32 (k w : Nat) : Nat := w / 2 ^ k + w % 2 ^ k * 2 ^ (32 - k)

/-- Logical right shift of a 32-bit word by `k` bits. -/
def shr32 (k w : Nat) : Nat := w / 2 ^ k

/-- Bitwise complement of a 32-bit word. -/
def not32 (w : Nat) : Nat := w ^^^ (2 ^ 32 - 1)

/-- SHA-256 small sigma 0. -/
def ssig0 (w : Nat) : Nat := rotr32 7 w ^^^ rotr32 18 w ^^^ shr32 3 w

/-- SHA-256 small sigma 1. -/
def ssig1 (w : Nat) : Nat := rotr32 17 w ^^^ rotr32 19 w ^^^ shr32 10 w

/-- SHA-256 big Sigma 0. -/
def bsig0 (w : Nat) : Nat := rotr32 2 w ^^^ rotr32 13 w ^^^ rotr32 22 w

/-- SHA-256 big Sigma 1. -/
def bsig1 (w : Nat) : Nat := rotr32 6 w ^^^ rotr32 11 w ^^^ rotr32 25 w

/-- SHA-256 choice function. -/
def chFn (e f g : Nat) : Nat := (e &&& f) ^^^ (not32 e &&& g)

/-- SHA-256 majority function. -/
def majFn (a b c : Nat) : Nat := (a &&& b) ^^^ (a &&& c) ^^^ (b &&& c)

/-- The eight 32-bit working registers of the SHA-256 compression function. -/
structure Hash8 where
  a : Nat
  b : Nat
  c : Nat
  d : Nat
  e : Nat
  f : Nat
  g : Nat
  h : Nat
  deriving DecidableEq, Repr

/-- SHA-256 initial hash value. -/
def sha256IV : Hash8 :=
  ⟨1779033703, 3144134277, 1013904242, 2773480762,
   1359893119, 2600822924, 528734635, 1541459225⟩

/-- The 64 SHA-256 round constants. -/
def sha256K : List Nat :=
  [1116352408, 1899447441, 3049323471, 3921009573,
   961987163, 1508970993, 2453635748, 2870763221,
   3624381080, 310598401, 607225278, 1426881987,
   1925078388, 2162078206, 2614888103, 3248222580,
   3835390401, 4022224774, 264347078, 604807628,
   770255983, 1249150122, 1555081692, 1996064986,
   2554220882, 2821834349, 2952996808, 3210313671,
   3336571891, 3584528711, 113926993, 338241895,
   666307205, 773529912, 1294757372, 1396182291,
   1695183700, 1986661051, 2177026350, 2456956037,
   2730485921, 2820302411, 3259730800, 3345764771,
   3516065817, 3600352804, 4094571909, 275423344,
   430227734, 506948616, 659060556, 883997877,
   958139571, 1322822218, 1537002063, 1747873779,
   1955562222, 2024104815, 2227730452, 2361852424,
   2428436474, 2756734187, 3204031479, 3329325298]

/-- Big-endian byte representation of `n`, `k` bytes wide. -/
def bytesBE (k n : Nat) : List Nat :=
  (List.range k).map (fun i => n / 256 ^ (k - 1 - i) % 256)

/-- SHA-256 message padding: append `0x80`, zero bytes, and the 64-bit
big-endian bit length, reaching a multiple of 64 bytes. -/
def padBytes (msg : List Nat) : List Nat :=
  msg ++ [0x80] ++ List.replicate ((64 - (msg.length + 9) % 64) % 64) 0
      ++ bytesBE 8 (8 * msg.length)

/-- Big-endian packing of bytes into 32-bit words (four bytes per word). -/
def bytesToWords : List Nat → List Nat
  | b0 :: b1 :: b2 :: b3 :: rest =>
      (((b0 * 256 + b1) * 256 + b2) * 256 + b3) :: bytesToWords rest
  | _ => []

/-- Extend the 16 chunk words to the 64-entry SHA-256 message schedule. -/
def schedule (w16 : List Nat) : List Nat :=
  (List.range 48).foldl
    (fun w _ =>
      let n := w.length
      w ++ [add32 (add32 (w.getD (n - 16) 0) (ssig0 (w.getD (n - 15) 0)))
                 (add32 (w.getD (n - 7) 0) (ssig1 (w.getD (n - 2) 0)))])
    w16

/-- One SHA-256 round. -/
def compressStep (st : Hash8) (kw : Nat × Nat) : Hash8 :=
  let t1 := add32 st.h (add32 (bsig1 st.e) (add32 (chFn st.e st.f st.g) (add32 kw.1 kw.2)))
  let t2 := add32 (bsig0 st.a) (majFn st.a st.b st.c)
  ⟨add32 t1 t2, st.a, st.b, st.c, add32 st.d t1, st.e, st.f, st.g⟩

/-- SHA-256 compression of one 64-byte chunk into the running hash value. -/
def compressChunk (H : Hash8) (chunk : List Nat) : Hash8 :=
  let st := (sha256K.zip (schedule (bytesToWords chunk))).foldl compressStep H
  ⟨add32 H.a st.a, add32 H.b st.b, add32 H.c st.c, add32 H.d st.d,
   add32 H.e st.e, add32 H.f st.f, add32 H.g st.g, add32 H.h st.h⟩

/-- Split a byte list into 64-byte chunks. -/
def chunks64 : List Nat → List (List Nat)
  | [] => []
  | x :: xs => (x :: xs.take 63) :: chunks64 (xs.drop 63)
termination_by l => l.length
decreasing_by simp; omega

/-- One lowercase hexadecimal digit. -/
def hexDigit (n : Nat) : Char :=
  if n < 10 then Char.ofNat (48 + n) else Char.ofNat (87 + n)

/-- The eight lowercase hex characters of a 32-bit word, most significant
nibble first. -/
def wordHex (w : Nat) : List Char :=
  (List.range 8).map (fun i => hexDigit (w / 16 ^ (7 - i) % 16))

/-- The 64 lowercase hex characters of `hashlib.sha256(bytes).hexdigest()`. -/
def sha256hex (msg : List Nat) : List Char :=
  let Hf := (chunks64 (padBytes msg)).foldl compressChunk sha256IV
  wordHex Hf.a ++ wordHex Hf.b ++ wordHex Hf.c ++ wordHex Hf.d ++
  wordHex Hf.e ++ wordHex Hf.f ++ wordHex Hf.g ++ wordHex Hf.h

/-- UTF-8 encoding of one character (what Python `str.encode()` produces per
code point). -/
def utf8EncodeChar (c : Char) : List Nat :=
  let n := c.toNat
  if n < 0x80 then [n]
  else if n < 0x800 then [0xc0 + n / 64, 0x80 + n % 64]
  else if n < 0x10000 then [0xe0 + n / 4096, 0x80 + n / 64 % 64, 0x80 + n % 64]
  else [0xf0 + n / 262144, 0x80 + n / 4096 % 64, 0x80 + n / 64 % 64, 0x80 + n % 64]

/-- Python `s.encode()`: the UTF-8 bytes of a string. -/
def utf8Bytes (s : String) : List Nat :=
  (s.toList.map utf8EncodeChar).flatten

/-- `DataHandler.generate_id` (crawler.py lines 69-72):
`identifier = f"{data.name}_{data.professional_title}_{data.company}"`,
then `hashlib.sha256(identifier.encode()).hexdigest()[:12]`. -/
def generate_id (data : PersonData) : String :=
  let identifier :=
    data.name ++ "_" ++ fmtOpt data.professional_title ++ "_" ++ fmtOpt data.company
  String.mk ((sha256hex (utf8Bytes identifier)).take 12)

/-- `DataHandler.sanitize_data` (crawler.py lines 87-100): a fresh copy of the
record whose `public_links` keeps only links passing `is_safe_link` (treating a
`None` list as empty, per `data.public_links or []`) and whose `last_updated`
is stamped with the current time (`datetime.now().isoformat()`, passed here as
the argument `now`). -/
def sanitize_data (data : PersonData) (now : String) : PersonData :=
  { name := data.name
    professional_title := data.professional_title
    company := data.company
    education := data.education
    public_links := some ((data.public_links.getD []).filter (fun link => is_safe_link link))
    last_updated := some now }

/-- The durable keyed store backing `DataHandler`: identifier to stored record
(the contents of `<storage_path>/<person_id>.json` files). -/
def FS : Type := String → Option PersonData

/-- The module-level names bound by the import statements of crawler.py
(lines 1-8 plus the mid-file imports at lines 47-50 and 178).  The name `os`
is not among them: crawler.py never executes `import os`. -/
def crawlerModuleImports : List String :=
  ["requests", "BeautifulSoup", "time", "urljoin", "re", "deque",
   "datetime", "timedelta", "threading", "dataclass", "dataclasses",
   "List", "Optional", "json", "hashlib", "logging"]

/-- `DataHandler.save_person_data` (crawler.py lines 74-85): compute
`person_id = generate_id(data)`, build `sanitize_data(data)`, then evaluate
`os.path.join(self.storage_path, ...)` — a lookup of the module-level name
`os`, which the module never imports, so in the shipped module this statement
raises `NameError` on every call and nothing is ever written.  The branch
guarded by the (never satisfied) import of `os` models what the remaining
body would do if the name resolved: write the serialized sanitized copy to
`<storage_path>/<person_id>.json` (opening with mode `w` truncates, so an
existing record under the same identifier would be replaced whole) and
return `person_id`. -/
def save_person_data (fs : FS) (data : PersonData) (now : String) :
    Except PyErr (FS × String) :=
  let person_id := generate_id data
  let sanitized := sanitize_data data now
  if crawlerModuleImports.contains "os" then
    .ok (fun k => if k = person_id then some sanitized else fs k, person_id)
  else
    .error (.nameError "os")


/-- Python `os.makedirs(path, exist_ok=True)` on a directory set. -/
def makedirs (dirs : List String) (path : String) : List String :=
  if path ∈ dirs then dirs else path :: dirs

/-- `DataHandler.ensure_storage_exists` (crawler.py lines 66-67): evaluate the
name `os`, then call `os.makedirs(self.storage_path, exist_ok=True)`.  The
name lookup consults the module's imports; if `os` is unbound the statement
raises `NameError` before any directory is created. -/
def ensure_storage_exists (dirs : List String) (storage_path : String) :
    Except PyErr (List String) :=
  if crawlerModuleImports.contains "os" then .ok (makedirs dirs storage_path)
  else .error (.nameError "os")

/-- `DataHandler.__init__` (crawler.py lines 62-64): store `storage_path` and
call `ensure_storage_exists`.  Returns the constructed handler state (its
storage path and the resulting directory set) or the exception the
constructor raises. -/
def dataHandler_init (dirs : List String) (storage_path : String) :
    Except PyErr (String × List String) :=
  (ensure_storage_exists dirs storage_path).map (fun d => (storage_path, d))

/-! ## RateLimiter (crawler.py lines 10-41)

Timestamps (`datetime.now()`) are modelled as rational seconds; `timedelta`
subtraction becomes rational subtraction, so "one minute ago" is `now - 60`
and "one second ago" is `now - 1`. -/

/-- The `RateLimiter` object (crawler.py lines 10-15): the two configured caps
and the deque of recent request timestamps, oldest first.  The lock is not a
field here because the whole locked region of `can_make_request` is embedded
as one atomic step (see the scheduling model further down for what is and is
not inside it). -/
structure RateLimiter where
  requests_per_minute : Nat
  burst_limit : Nat
  requests : List ℚ
  deriving DecidableEq, Repr

/-- `RateLimiter.__init__` (crawler.py lines 11-15) with an empty deque. -/
def RateLimiter.init (requests_per_minute burst_limit : Nat) : RateLimiter :=
  ⟨requests_per_minute, burst_limit, []⟩

/-- The eviction loop of `can_make_request` (crawler.py lines 23-24):
`while self.requests and self.requests[0] < minute_ago: self.requests.popleft()`. -/
def evictOld (cutoff : ℚ) : List ℚ → List ℚ
  | [] => []
  | t :: ts => if t < cutoff then evictOld cutoff ts else t :: ts

/-- The burst counter of `can_make_request` (crawler.py line 32):
`sum(1 for req in self.requests if req > last_second)`. -/
def countRecent (last_second : ℚ) (l : List ℚ) : Nat :=
  (l.filter (fun t => last_second < t)).length

/-- `RateLimiter.can_make_request` (crawler.py lines 17-37) evaluated at clock
reading `now`: evict timestamps older than one minute, reject if the window
holds `requests_per_minute` or more, reject if `burst_limit` or more
timestamps are newer than one second, otherwise record `now` and accept.
Returns the decision and the updated limiter. -/
def can_make_request (rl : RateLimiter) (now : ℚ) : Bool × RateLimiter :=
  let evicted := evictOld (now - 60) rl.requests
  if rl.requests_per_minute ≤ evicted.length then
    (false, { rl with requests := evicted })
  else if rl.burst_limit ≤ countRecent (now - 1) evicted then
    (false, { rl with requests := evicted })
  else
    (true, { rl with requests := evicted ++ [now] })

/-- `RateLimiter.wait_if_needed` (crawler.py lines 39-41):
`while not self.can_make_request(): time.sleep(0.1)`.  The loop is unrolled
against an explicit attempt budget `fuel`; each retry is made one fixed
0.1-second interval after the previous one.  `none` means the loop had not
accepted within `fuel` attempts (the source loop has no other exit and no
timeout); `some (rl, n)` means attempt `n` (counting from 0, made at clock
`t + n / 10`) accepted, yielding limiter state `rl`. -/
def wait_if_needed : Nat → RateLimiter → ℚ → Option (RateLimiter × Nat)
  | 0, _, _ => none
  | fuel + 1, rl, t =>
    let r := can_make_request rl t
    if r.1 then some (r.2, 0)
    else
      match wait_if_needed fuel r.2 (t + 1 / 10) with
      | some (rlF, n) => some (rlF, n + 1)
      | none => none

/-- One run of a sequence of `can_make_request` calls at the given clock
readings, returning the final limiter and the per-call trace of
(clock reading, decision). -/
def runCalls (rl : RateLimiter) : List ℚ → RateLimiter × List (ℚ × Bool)
  | [] => (rl, [])
  | t :: ts =>
    let r := can_make_request rl t
    let rest := runCalls r.2 ts
    (rest.1, (t, r.1) :: rest.2)

/-- The timestamps of the accepted calls of a trace, in call order. -/
def acceptedTimes (trace : List (ℚ × Bool)) : List ℚ :=
  (trace.filter (fun p => p.2)).map (fun p => p.1)

/-! ## EnhancedWebCrawler (crawler.py lines 114-173)

The pipeline threads the rate limiter, the clock readings of each limiter
gate, and the record store explicitly.  An outer `none` means a
`wait_if_needed` gate never accepted within its attempt budget (the search
blocks forever); `some (.error e)` means the Python call raised `e`. -/

/-- The observable outcome of one `self.session.get(...)` fetch: either a
response with its HTTP status code and the href attributes of the `<a>` tags
of the response body, or a raised exception. -/
inductive FetchOutcome where
  | ok (status : Nat) (hrefs : List String)
  | raise (e : PyErr)
  deriving DecidableEq, Repr

/-- What one source contributes to the merge: zero or more scalar fields and
zero or more candidate links (spec section 4.3 step 3; the dict returned by a
`search_*` method). -/
structure SourceResult where
  professional_title : Option String := none
  company : Option String := none
  education : List String := []
  public_links : List String := []
  deriving DecidableEq, Repr

/-- `EnhancedWebCrawler.parse_linkedin_results` (crawler.py lines 159-173):
keep the hrefs containing the literal `linkedin.com/in/` (a case-sensitive
check in the source, unlike `is_safe_link`) and retain only the first match
(`public_profiles[:1]`); an empty result models the empty dict. -/
def parse_linkedin_results (hrefs : List String) : List String :=
  (hrefs.filter (fun h => strContains h "linkedin.com/in/")).take 1

/-- `EnhancedWebCrawler.search_linkedin` (crawler.py lines 144-157): wait on
the limiter, perform the GET, and on status 200 parse the result; on any other
status return the empty dict.  A raised exception inside the GET is not caught
anywhere in this method, so it propagates to the caller. -/
def search_linkedin (fuel : Nat) (t : ℚ) (rl : RateLimiter) (outcome : FetchOutcome) :
    Option (Except PyErr (RateLimiter × SourceResult)) :=
  match wait_if_needed fuel rl t with
  | none => none
  | some (rl1, _) =>
    match outcome with
    | .raise e => some (.error e)
    | .ok status hrefs =>
      some (.ok (rl1,
        { public_links := if status = 200 then parse_linkedin_results hrefs else [] }))

/-- Modelled from the spec: `search_github` and `search_scholar` are called at
crawler.py lines 133-134 but their definitions are missing from the sources
provided.  Per spec section 4.3 they acquire a fresh permit, perform one
rate-limited fetch, and on a 2xx response parse it into a small result set
(the page-specific parse is out of scope per section 1, so its output on this
fetch is the parameter `parsed`); on any non-success status they return the
empty result set.  As in the in-source exemplar `search_linkedin`, a raised
exception is not caught inside the method. -/
def source_fetch (fuel : Nat) (t : ℚ) (rl : RateLimiter) (outcome : FetchOutcome)
    (parsed : SourceResult) : Option (Except PyErr (RateLimiter × SourceResult)) :=
  match wait_if_needed fuel rl t with
  | none => none
  | some (rl1, _) =>
    match outcome with
    | .raise e => some (.error e)
    | .ok status _ => some (.ok (rl1, if status = 200 then parsed else {}))

/-- Modelled from the spec: the merge step `combine_info` (called at
crawler.py line 137, not defined in the sources provided).  Spec section 4.3
step 3: first-writer-wins for the scalar fields (set only if currently unset)
and append for the list fields (each source is already capped to its first
matching candidate); an absent list is initialised to empty before
appending. -/
def combine_info (pd : PersonData) (results : List SourceResult) : PersonData :=
  results.foldl
    (fun acc r =>
      { acc with
        professional_title :=
          match acc.professional_title with
          | some v => some v
          | none => r.professional_title
        company :=
          match acc.company with
          | some v => some v
          | none => r.company
        education := some (acc.education.getD [] ++ r.education)
        public_links := some (acc.public_links.getD [] ++ r.public_links) })
    pd

/-- `EnhancedWebCrawler.search_person` (crawler.py lines 126-142): wait on the
umbrella limiter gate, create the empty record, run the three source lookups
(each with its own gate, at clock readings `t0 t1 t2 t3`), merge, save, and
return the in-memory record `person_data` — not the sanitized copy, which
only `save_person_data` builds.  No step is wrapped in a try/except, so an
exception raised by a source fetch propagates and aborts the method, as does
the `NameError` that `save_person_data` raises in the shipped module (see its
doc comment): the final return statement is unreachable. -/
def search_person (name : String) (fuel : Nat) (t0 t1 t2 t3 : ℚ)
    (rl0 : RateLimiter) (fs : FS) (liOut ghOut scOut : FetchOutcome)
    (ghParsed scParsed : SourceResult) (now : String) :
    Option (Except PyErr (PersonData × RateLimiter × FS)) :=
  match wait_if_needed fuel rl0 t0 with
  | none => none
  | some (rl1, _) =>
  match search_linkedin fuel t1 rl1 liOut with
  | none => none
  | some (.error e) => some (.error e)
  | some (.ok (rl2, linkedin_info)) =>
  match source_fetch fuel t2 rl2 ghOut ghParsed with
  | none => none
  | some (.error e) => some (.error e)
  | some (.ok (rl3, github_info)) =>
  match source_fetch fuel t3 rl3 scOut scParsed with
  | none => none
  | some (.error e) => some (.error e)
  | some (.ok (rl4, scholar_info)) =>
  let person_data := combine_info { name := name } [linkedin_info, github_info, scholar_info]
  match save_person_data fs person_data now with
  | .error e => some (.error e)
  | .ok (fs1, _) => some (.ok (person_data, rl4, fs1))

/-! ## Scheduling model for `can_make_request` under two concurrent callers

In the source (crawler.py lines 17-21) the statement `now = datetime.now()`
and the construction of `minute_ago` execute BEFORE `with self.lock:`; only
the evict / minute-check / burst-check / append sequence runs inside the
lock.  The model below has each caller perform two atomic events: sampling
the clock, and then running the locked body `can_make_request` at the sampled
time.  A schedule is the interleaving of the two callers' events; clock
readings are handed out in event order from an ascending list, since the
wall clock advances between events. -/

/-- The four events of two callers A and B: each samples the clock and then
runs the locked body of `can_make_request`. -/
inductive Ev where
  | aSample
  | aBody
  | bSample
  | bBody
  deriving DecidableEq, Repr

/-- The shared and per-caller state while two calls are in flight: the
limiter, the clock readings not yet handed out, each caller's sampled `now`,
and each caller's result once its body has run. -/
structure TwoCallState where
  rl : RateLimiter
  clock : List ℚ
  tA : Option ℚ := none
  tB : Option ℚ := none
  resA : Option Bool := none
  resB : Option Bool := none
  deriving DecidableEq, Repr

/-- One event of the two-caller interleaving: a sample event takes the next
clock reading; a body event runs the locked region of `can_make_request`
atomically at the caller's sampled time (a body without a prior sample is a
no-op; valid schedules never do that). -/
def stepEv (st : TwoCallState) : Ev → TwoCallState
  | .aSample => { st with tA := st.clock.head?, clock := st.clock.tail }
  | .bSample => { st with tB := st.clock.head?, clock := st.clock.tail }
  | .aBody =>
    match st.tA with
    | none => st
    | some t =>
      let r := can_make_request st.rl t
      { st with rl := r.2, resA := some r.1 }
  | .bBody =>
    match st.tB with
    | none => st
    | some t =>
      let r := can_make_request st.rl t
      { st with rl := r.2, resB := some r.1 }

/-- Run a schedule of events from an initial limiter and clock list. -/
def runSched (rl : RateLimiter) (clock : List ℚ) (sched : List Ev) : TwoCallState :=
  sched.foldl stepEv { rl := rl, clock := clock }

/-- A valid schedule is a permutation of the four events in which each
caller samples the clock before running its locked body. -/
def validSched (sched : List Ev) : Prop :=
  List.Perm sched [Ev.aSample, Ev.aBody, Ev.bSample, Ev.bBody] ∧
  sched.indexOf Ev.aSample < sched.indexOf Ev.aBody ∧
  sched.indexOf Ev.bSample < sched.indexOf Ev.bBody

/-! ## main.py -/

/-- Python truthiness of an `os.getenv` result: `None` and the empty string
are falsy, any other string is truthy. -/
def pyTruthy : Option String → Bool
  | none => false
  | some s => !(s = "")

/-- The parameter names accepted by `EnhancedWebCrawler.__init__` besides
`self` (crawler.py line 116: `def __init__(self):`). -/
def enhancedWebCrawler_init_params : List String := []

/-- The keyword-argument names `main` passes when constructing
`EnhancedWebCrawler` (main.py lines 19-22). -/
def main_crawler_kwargs : List String := ["google_api_key", "search_engine_id"]

/-- How far `main` gets: `valueErrorMissingKeys` models the explicit
`raise ValueError(...)` (main.py line 16); `typeErrorCrawlerInit` models the
`TypeError` Python raises when binding an unexpected keyword argument at the
`EnhancedWebCrawler(...)` call (main.py lines 19-22); `botRunning` means the
`bot.run()` line was reached. -/
inductive MainOutcome where
  | valueErrorMissingKeys
  | typeErrorCrawlerInit
  | botRunning
  deriving DecidableEq, Repr

/-- The function `main` of main.py (lines 6-27; named `mainFn` here because
Lean reserves `main` for executables) over an environment mapping variable names to
values: read the three variables, raise `ValueError` unless all three are
truthy, then construct `EnhancedWebCrawler(google_api_key=..., search_engine_id=...)` —
Python binds the keyword arguments against the constructor's parameter list
before executing its body, raising `TypeError` on any unexpected keyword —
and only then build the bot and call `bot.run()`. -/
def mainFn (env : String → Option String) : MainOutcome :=
  let bot_token := env "TELEGRAM_BOT_TOKEN"
  let google_api_key := env "GOOGLE_API_KEY"
  let search_engine_id := env "SEARCH_ENGINE_ID"
  if !(pyTruthy bot_token && pyTruthy google_api_key && pyTruthy search_engine_id) then
    .valueErrorMissingKeys
  else if main_crawler_kwargs.all (fun k => enhancedWebCrawler_init_params.contains k) then
    .botRunning
  else
    .typeErrorCrawlerInit

/-- The state invariant tying the limiter window to the accepted-call
history: after a call at clock `T` with accepted timestamps `acc` so far, the
window is exactly the accepted timestamps of the trailing minute, the history
is ascending and bounded by `T`, and both caps hold on the window. -/
structure WindowInv (acc : List ℚ) (T : ℚ) (rl : RateLimiter) : Prop where
  accSorted : acc.Pairwise (· ≤ ·)
  accLe : ∀ s ∈ acc, s ≤ T
  winEq : rl.requests = acc.filter (fun s => decide (T - 60 ≤ s))
  lenLe : rl.requests.length ≤ rl.requests_per_minute
  burstLe : countRecent (T - 1) rl.requests ≤ rl.burst_limit


instance validSched_decidable (sched : List Ev) : Decidable (validSched sched) := by
  unfold validSched
  infer_instance

/-! ## Helper lemmas -/

/-- The eviction loop only removes entries: its result is a sublist. -/
lemma evictOld_sublist (c : ℚ) (l : List ℚ) : (evictOld c l).Sublist l := by
  induction l with
  | nil => simp [evictOld]
  | cons a t ih =>
    by_cases h : a < c
    · simpa [evictOld, h] using ih.trans (List.sublist_cons_self a t)
    · simp [evictOld, h]

/-- On an ascending window the front-eviction loop removes exactly the
entries older than the cutoff. -/
lemma evictOld_eq_filter (c : ℚ) (l : List ℚ) (h : l.Pairwise (· ≤ ·)) :
    evictOld c l = l.filter (fun s => decide (c ≤ s)) := by
  induction l with
  | nil => simp [evictOld]
  | cons a t ih =>
    rcases List.pairwise_cons.mp h with ⟨hhead, htail⟩
    by_cases hac : a < c
    · have : ¬ c ≤ a := not_le.mpr hac
      simp [evictOld, hac, this, ih htail]
    · have hca : c ≤ a := not_lt.mp hac
      have : ∀ s ∈ t, decide (c ≤ s) = true := by
        intro s hs
        exact decide_eq_true (hca.trans (hhead s hs))
      simp [evictOld, hac, hca, List.filter_eq_self.mpr this]

/-- If every entry is older than the cutoff, eviction empties the window. -/
lemma evictOld_eq_nil (c : ℚ) (l : List ℚ) (h : ∀ s ∈ l, s < c) :
    evictOld c l = [] := by
  induction l with
  | nil => rfl
  | cons a t ih =>
    have := h a (List.mem_cons_self a t)
    simp only [evictOld, if_pos this]
    exact ih (fun s hs => h s (List.mem_cons_of_mem a hs))

/-- The burst counter is bounded by the window size. -/
lemma countRecent_le_length (ls : ℚ) (l : List ℚ) : countRecent ls l ≤ l.length :=
  (List.filter_sublist l).length_le

/-- `can_make_request` never changes the configured caps. -/
lemma can_make_request_caps (rl : RateLimiter) (t : ℚ) :
    ((can_make_request rl t).2.requests_per_minute = rl.requests_per_minute) ∧
    ((can_make_request rl t).2.burst_limit = rl.burst_limit) := by
  simp only [can_make_request]
  split_ifs <;> exact ⟨rfl, rfl⟩

/-! ## C4 -/

/-- `startsWithChars` decides list-prefix. -/
lemma startsWithChars_iff (sub hay : List Char) :
    startsWithChars sub hay = true ↔ sub <+: hay := by
  induction sub generalizing hay with
  | nil => simp [startsWithChars]
  | cons a s ih =>
    cases hay with
    | nil => simp [startsWithChars]
    | cons b h =>
      simp only [startsWithChars, Bool.and_eq_true, beq_iff_eq, ih,
        List.cons_prefix_cons]

/-- `hasSubChars` decides contiguous-substring membership. -/
lemma hasSubChars_iff (sub hay : List Char) :
    hasSubChars sub hay = true ↔ sub <:+: hay := by
  induction hay with
  | nil => simp [hasSubChars, startsWithChars_iff, List.infix_nil, List.prefix_nil]
  | cons b t ih =>
    simp [hasSubChars, startsWithChars_iff, ih, List.infix_cons_iff]

/-- Claim C4: `is_safe_link` returns true exactly when the lowercased
reference contains one of the four fixed allowlist markers as a substring;
in particular anything not matched is rejected, and the empty string is
rejected.  (The embedding is a total function, so no input can raise.) -/
theorem is_safe_link_allowlist :
    (∀ link : String,
        is_safe_link link = true ↔
          ∃ domain ∈ allowed_domains, domain.toList <:+: (pyLower link).toList) ∧
    is_safe_link "" = false := by
  constructor
  · intro link
    simp [is_safe_link, strContains, List.any_eq_true, hasSubChars_iff]
  · decide

/-! ## C5 -/

/-- The hex digest always has exactly 64 characters. -/
lemma sha256hex_length (msg : List Nat) : (sha256hex msg).length = 64 := by
  simp [sha256hex, wordHex]

/-- Claim C5: `generate_id` is a pure function of the identity triple
`(name, professional_title, company)` only — two records agreeing on the
triple get the identical identifier, whatever their `education`,
`public_links` and `last_updated` — and the identifier is a fixed-length
12-character string. -/
theorem generate_id_identity_triple (d1 d2 : PersonData)
    (hn : d1.name = d2.name)
    (ht : d1.professional_title = d2.professional_title)
    (hc : d1.company = d2.company) :
    generate_id d1 = generate_id d2 ∧ (generate_id d1).length = 12 := by
  constructor
  · unfold generate_id
    rw [hn, ht, hc]
  · show (String.mk ((sha256hex _).take 12)).length = 12
    simp [String.length, sha256hex_length]

/-- Witness for C5 at a concrete pair of records differing in every volatile
field. -/
theorem generate_id_identity_triple_witness :
    generate_id { name := "Jane Doe" } =
      generate_id { name := "Jane Doe", education := some ["MIT"],
                    public_links := some ["github.com/jane"],
                    last_updated := some "2024-01-01T00:00:00" } ∧
    (generate_id { name := "Jane Doe" }).length = 12 :=
  generate_id_identity_triple _ _ rfl rfl rfl

/-! ## C6 -/

/-- Claim C6 is a code bug: constructing `DataHandler("data/")` is claimed
never to raise and to create the storage root, but crawler.py never imports
`os`, so the `os.makedirs` call in `ensure_storage_exists` raises
`NameError: name 'os' is not defined` from the constructor, and no directory
is created. -/
theorem dataHandler_init_raises_nameerror :
    dataHandler_init [] "data/" = Except.error (PyErr.nameError "os") := rfl

/-! ## C10 -/

/-- Claim C10: with all three required environment variables set (to
non-empty values, which is what the `all([...])` truthiness check of main.py
line 15 lets through), `main` survives its own key check and then raises
`TypeError` at the `EnhancedWebCrawler(google_api_key=..., search_engine_id=...)`
call, because `EnhancedWebCrawler.__init__` accepts no parameters besides
`self`; `bot.run()` is never reached. -/
theorem main_typeerror_at_crawler_construction (env : String → Option String)
    (b g s : String)
    (hb : env "TELEGRAM_BOT_TOKEN" = some b) (hbne : b ≠ "")
    (hg : env "GOOGLE_API_KEY" = some g) (hgne : g ≠ "")
    (hs : env "SEARCH_ENGINE_ID" = some s) (hsne : s ≠ "") :
    mainFn env = MainOutcome.typeErrorCrawlerInit := by
  unfold mainFn
  rw [hb, hg, hs]
  simp [pyTruthy, hbne, hgne, hsne, main_crawler_kwargs, enhancedWebCrawler_init_params]

/-- Witness for C10 in a concrete environment with the three keys set. -/
theorem main_typeerror_at_crawler_construction_witness :
    mainFn (fun _ => some "key") = MainOutcome.typeErrorCrawlerInit :=
  main_typeerror_at_crawler_construction _ "key" "key" "key"
    rfl (by decide) rfl (by decide) rfl (by decide)

/-! ## C8 -/

/-- Claim C8 is a code bug: `save_person_data` is claimed to store a
sanitized copy keyed by `generate_id(record)` and return that identifier
(with overwrite-not-merge semantics on re-persist), and that is what its
body is written to do — but crawler.py never imports `os`, so the
`os.path.join` call at line 81 raises `NameError: name 'os' is not defined`
on every call, before anything is written: no record is ever stored and no
identifier returned. -/
theorem save_person_data_raises_nameerror (fs : FS) (data : PersonData) (now : String) :
    save_person_data fs data now = Except.error (PyErr.nameError "os") := rfl

/-! ## C2 -/

/-- `can_make_request` when the minute cap rejects. -/
lemma can_make_request_minute_reject {rl : RateLimiter} {t : ℚ}
    (h : rl.requests_per_minute ≤ (evictOld (t - 60) rl.requests).length) :
    can_make_request rl t = (false, { rl with requests := evictOld (t - 60) rl.requests }) := by
  simp only [can_make_request]
  rw [if_pos h]

/-- `can_make_request` when the burst cap rejects. -/
lemma can_make_request_burst_reject {rl : RateLimiter} {t : ℚ}
    (h1 : ¬ rl.requests_per_minute ≤ (evictOld (t - 60) rl.requests).length)
    (h2 : rl.burst_limit ≤ countRecent (t - 1) (evictOld (t - 60) rl.requests)) :
    can_make_request rl t = (false, { rl with requests := evictOld (t - 60) rl.requests }) := by
  simp only [can_make_request]
  rw [if_neg h1, if_pos h2]

/-- `can_make_request` when both checks pass: the call is accepted and its
timestamp recorded. -/
lemma can_make_request_accept {rl : RateLimiter} {t : ℚ}
    (h1 : ¬ rl.requests_per_minute ≤ (evictOld (t - 60) rl.requests).length)
    (h2 : ¬ rl.burst_limit ≤ countRecent (t - 1) (evictOld (t - 60) rl.requests)) :
    can_make_request rl t = (true, { rl with requests := evictOld (t - 60) rl.requests ++ [t] }) := by
  simp only [can_make_request]
  rw [if_neg h1, if_neg h2]

/-- Eviction at a later clock reading turns a trailing-minute window of `T`
into the trailing-minute window of `T'`. -/
lemma evict_window {acc : List ℚ} {T : ℚ} {rl : RateLimiter}
    (inv : WindowInv acc T rl) {T' : ℚ} (hT : T ≤ T') :
    evictOld (T' - 60) rl.requests = acc.filter (fun s => decide (T' - 60 ≤ s)) := by
  have hsort : rl.requests.Pairwise (· ≤ ·) := by
    rw [inv.winEq]
    exact inv.accSorted.sublist (List.filter_sublist acc)
  rw [evictOld_eq_filter _ _ hsort, inv.winEq, List.filter_filter]
  refine List.filter_congr ?_
  intro a _
  by_cases h : T' - 60 ≤ a
  · have h2 : T - 60 ≤ a := by linarith
    simp [h, h2]
  · simp [h]

/-- One step of the invariant: a call at any later clock reading preserves
`WindowInv`, extending the accepted history exactly when it is accepted. -/
lemma windowInv_step {acc : List ℚ} {T : ℚ} {rl : RateLimiter}
    (inv : WindowInv acc T rl) {T' : ℚ} (hT : T ≤ T') :
    WindowInv (if (can_make_request rl T').1 then acc ++ [T'] else acc) T'
      (can_make_request rl T').2 := by
  have hE := evict_window inv hT
  have hEsub : (evictOld (T' - 60) rl.requests).Sublist rl.requests :=
    evictOld_sublist _ _
  have hElen : (evictOld (T' - 60) rl.requests).length ≤ rl.requests.length :=
    hEsub.length_le
  have hEburst : countRecent (T' - 1) (evictOld (T' - 60) rl.requests) ≤
      countRecent (T - 1) rl.requests := by
    unfold countRecent
    refine List.Sublist.length_le ?_
    refine List.Sublist.trans (List.monotone_filter_right _ ?_) (hEsub.filter _)
    intro a ha
    have h1 : T' - 1 < a := of_decide_eq_true ha
    exact decide_eq_true (by linarith)
  have haccLe : ∀ s ∈ acc, s ≤ T' := fun s hs => (inv.accLe s hs).trans hT
  by_cases h1 : rl.requests_per_minute ≤ (evictOld (T' - 60) rl.requests).length
  · rw [can_make_request_minute_reject h1]
    show WindowInv acc T' _
    refine ⟨inv.accSorted, haccLe, hE, ?_, ?_⟩
    · exact hElen.trans inv.lenLe
    · exact hEburst.trans inv.burstLe
  · by_cases h2 : rl.burst_limit ≤ countRecent (T' - 1) (evictOld (T' - 60) rl.requests)
    · rw [can_make_request_burst_reject h1 h2]
      show WindowInv acc T' _
      refine ⟨inv.accSorted, haccLe, hE, ?_, ?_⟩
      · exact hElen.trans inv.lenLe
      · exact hEburst.trans inv.burstLe
    · rw [can_make_request_accept h1 h2]
      show WindowInv (acc ++ [T']) T' _
      refine ⟨?_, ?_, ?_, ?_, ?_⟩
      · rw [List.pairwise_append]
        refine ⟨inv.accSorted, List.pairwise_singleton _ _, ?_⟩
        intro a ha b hb
        rw [List.mem_singleton] at hb
        subst hb
        exact haccLe a ha
      · intro s hs
        rcases List.mem_append.mp hs with h | h
        · exact haccLe s h
        · rw [List.mem_singleton] at h
          exact h.le
      · show evictOld (T' - 60) rl.requests ++ [T'] = _
        rw [hE, List.filter_append]
        simp only [List.filter_cons, List.filter_nil]
        rw [if_pos (decide_eq_true (by linarith : T' - 60 ≤ T'))]
      · show (evictOld (T' - 60) rl.requests ++ [T']).length ≤ rl.requests_per_minute
        rw [List.length_append, List.length_singleton]
        omega
      · show countRecent (T' - 1) (evictOld (T' - 60) rl.requests ++ [T']) ≤ rl.burst_limit
        unfold countRecent at h2 ⊢
        rw [List.filter_append]
        simp only [List.filter_cons, List.filter_nil]
        rw [if_pos (decide_eq_true (by linarith : T' - 1 < T'))]
        rw [List.length_append, List.length_singleton]
        omega

/-- Trace bookkeeping: the accepted timestamp of a call is prepended exactly
when the call was accepted. -/
lemma acceptedTimes_cons (t : ℚ) (b : Bool) (l : List (ℚ × Bool)) :
    acceptedTimes ((t, b) :: l) = if b then t :: acceptedTimes l else acceptedTimes l := by
  cases b <;> simp [acceptedTimes]

/-- A run of calls never changes the configured caps. -/
lemma runCalls_caps : ∀ (calls : List ℚ) (rl : RateLimiter),
    ((runCalls rl calls).1.requests_per_minute = rl.requests_per_minute) ∧
    ((runCalls rl calls).1.burst_limit = rl.burst_limit) := by
  intro calls
  induction calls with
  | nil => intro rl; exact ⟨rfl, rfl⟩
  | cons t ts ih =>
    intro rl
    have h1 := ih (can_make_request rl t).2
    have h2 := can_make_request_caps rl t
    simp only [runCalls]
    exact ⟨h1.1.trans h2.1, h1.2.trans h2.2⟩

/-- Running any ascending sequence of calls from an invariant-satisfying
state lands in an invariant-satisfying state whose history is extended by the
accepted timestamps of the run. -/
lemma runCalls_windowInv : ∀ (calls : List ℚ) {rl : RateLimiter} {acc : List ℚ} {T : ℚ},
    WindowInv acc T rl → List.Pairwise (· ≤ ·) (T :: calls) →
    WindowInv (acc ++ acceptedTimes (runCalls rl calls).2) (calls.getLastD T)
      (runCalls rl calls).1 := by
  intro calls
  induction calls with
  | nil =>
    intro rl acc T inv _
    simpa [runCalls, acceptedTimes] using inv
  | cons t ts ih =>
    intro rl acc T inv hpair
    rcases List.pairwise_cons.mp hpair with ⟨hhead, htail⟩
    have hTt : T ≤ t := hhead t (List.mem_cons_self t ts)
    have step := windowInv_step inv hTt
    have final := ih step htail
    simp only [runCalls, acceptedTimes_cons, List.getLastD_cons]
    cases hb : (can_make_request rl t).1 with
    | true =>
      rw [hb] at step final
      simpa [List.append_assoc] using final
    | false =>
      rw [hb] at step final
      simpa using final

/-- Claim C2: starting from a fresh limiter, for every ascending sequence of
calls to `can_make_request` and at every point of the sequence, the number of
accepted calls whose timestamps lie in the trailing 60-second window of that
point is at most `requests_per_minute`, and the number whose timestamps lie
in the trailing 1-second window is at most `burst_limit`.  (The point is the
last call of a prefix, whose clock reading `t` anchors the two trailing
windows, `[t - 60, t]` and `(t - 1, t]`; later calls cannot change the
counts of earlier points.) -/
theorem rate_limiter_sliding_window_caps (rpm burst : ℕ) (pre : List ℚ) (t : ℚ)
    (hmono : List.Pairwise (· ≤ ·) (pre ++ [t])) :
    ((acceptedTimes (runCalls (RateLimiter.init rpm burst) (pre ++ [t])).2).filter
        (fun s => decide (t - 60 ≤ s))).length ≤ rpm ∧
    ((acceptedTimes (runCalls (RateLimiter.init rpm burst) (pre ++ [t])).2).filter
        (fun s => decide (t - 1 < s))).length ≤ burst := by
  obtain ⟨c, cs, hcons⟩ : ∃ c cs, pre ++ [t] = c :: cs := by
    cases pre with
    | nil => exact ⟨t, [], rfl⟩
    | cons a l => exact ⟨a, l ++ [t], rfl⟩
  have inv0 : WindowInv [] c (RateLimiter.init rpm burst) :=
    ⟨List.Pairwise.nil, by simp, rfl, Nat.zero_le _, Nat.zero_le _⟩
  have hpair : List.Pairwise (· ≤ ·) (c :: c :: cs) := by
    rw [hcons] at hmono
    rcases List.pairwise_cons.mp hmono with ⟨hhead, htail⟩
    refine List.pairwise_cons.mpr ⟨?_, hmono⟩
    intro y hy
    rcases List.mem_cons.mp hy with h | h
    · exact h.ge
    · exact hhead y h
  have final := runCalls_windowInv (c :: cs) inv0 hpair
  have hlast : (c :: cs).getLastD c = t := by
    have : (pre ++ [t]).getLastD c = t := by
      simp [List.getLastD_concat]
    rwa [hcons] at this
  rw [hlast] at final
  have hcaps := runCalls_caps (c :: cs) (RateLimiter.init rpm burst)
  rw [hcons]
  constructor
  · have := final.lenLe
    rw [final.winEq, hcaps.1] at this
    simpa using this
  · have := final.burstLe
    rw [hcaps.2] at this
    unfold countRecent at this
    rw [final.winEq, List.filter_filter] at this
    simp only [List.nil_append] at this
    have heq : (acceptedTimes (runCalls (RateLimiter.init rpm burst) (c :: cs)).2).filter
          (fun s => decide (t - 1 < s) && decide (t - 60 ≤ s)) =
        (acceptedTimes (runCalls (RateLimiter.init rpm burst) (c :: cs)).2).filter
          (fun s => decide (t - 1 < s)) := by
      refine List.filter_congr ?_
      intro a _
      by_cases h : t - 1 < a
      · have h2 : t - 60 ≤ a := by linarith
        simp [h, h2]
      · simp [h]
    rw [heq] at this
    simpa using this

/-- Witness for C2 at a concrete two-call ascending sequence. -/
theorem rate_limiter_sliding_window_caps_witness :
    ((acceptedTimes (runCalls (RateLimiter.init 60 10) ([0] ++ [1])).2).filter
        (fun s => decide ((1 : ℚ) - 60 ≤ s))).length ≤ 60 ∧
    ((acceptedTimes (runCalls (RateLimiter.init 60 10) ([0] ++ [1])).2).filter
        (fun s => decide ((1 : ℚ) - 1 < s))).length ≤ 10 :=
  rate_limiter_sliding_window_caps 60 10 [0] 1 (by decide)

/-! ## C9 -/

/-- One-step unfolding of the retry loop. -/
lemma wait_if_needed_succ (fuel : ℕ) (rl : RateLimiter) (t : ℚ) :
    wait_if_needed (fuel + 1) rl t =
      if (can_make_request rl t).1 then some ((can_make_request rl t).2, 0)
      else
        match wait_if_needed fuel (can_make_request rl t).2 (t + 1 / 10) with
        | some (rlF, n) => some (rlF, n + 1)
        | none => none := rfl

/-- An accepted call appended its own timestamp and left both caps
satisfied in the resulting window. -/
lemma can_make_request_accept_state {rl : RateLimiter} {t : ℚ}
    (h : (can_make_request rl t).1 = true) :
    (can_make_request rl t).2.requests = evictOld (t - 60) rl.requests ++ [t] ∧
    (can_make_request rl t).2.requests.length ≤ rl.requests_per_minute ∧
    countRecent (t - 1) (can_make_request rl t).2.requests ≤ rl.burst_limit := by
  by_cases h1 : rl.requests_per_minute ≤ (evictOld (t - 60) rl.requests).length
  · rw [can_make_request_minute_reject h1] at h
    simp at h
  by_cases h2 : rl.burst_limit ≤ countRecent (t - 1) (evictOld (t - 60) rl.requests)
  · rw [can_make_request_burst_reject h1 h2] at h
    simp at h
  rw [can_make_request_accept h1 h2]
  refine ⟨rfl, ?_, ?_⟩
  · show (evictOld (t - 60) rl.requests ++ [t]).length ≤ _
    rw [List.length_append, List.length_singleton]
    omega
  · show countRecent (t - 1) (evictOld (t - 60) rl.requests ++ [t]) ≤ _
    unfold countRecent at h2 ⊢
    rw [List.filter_append]
    simp only [List.filter_cons, List.filter_nil]
    rw [if_pos (decide_eq_true (by linarith : t - 1 < t))]
    rw [List.length_append, List.length_singleton]
    omega

/-- A rejected call only evicted stale timestamps. -/
lemma can_make_request_reject_state {rl : RateLimiter} {t : ℚ}
    (h : (can_make_request rl t).1 = false) :
    (can_make_request rl t).2.requests = evictOld (t - 60) rl.requests := by
  by_cases h1 : rl.requests_per_minute ≤ (evictOld (t - 60) rl.requests).length
  · rw [can_make_request_minute_reject h1]
  by_cases h2 : rl.burst_limit ≤ countRecent (t - 1) (evictOld (t - 60) rl.requests)
  · rw [can_make_request_burst_reject h1 h2]
  rw [can_make_request_accept h1 h2] at h
  simp at h

/-- When the first attempt is accepted the wait loop returns it at once. -/
lemma wait_if_needed_accept_first {fuel : ℕ} {rl : RateLimiter} {t : ℚ}
    (hf : 1 ≤ fuel) (h : (can_make_request rl t).1 = true) :
    wait_if_needed fuel rl t = some ((can_make_request rl t).2, 0) := by
  cases fuel with
  | zero => omega
  | succ n =>
    rw [wait_if_needed_succ]
    rw [if_pos h]

/-- Whatever the loop returns came from an accepted call: the returned
window ends with the timestamp of attempt `n` (made at `t + n / 10`, the
fixed 0.1-second retry spacing) and satisfies both caps at that attempt. -/
lemma wait_if_needed_result : ∀ (fuel : ℕ) (rl : RateLimiter) (t : ℚ)
    {rl' : RateLimiter} {n : ℕ},
    wait_if_needed fuel rl t = some (rl', n) →
    rl'.requests.getLast? = some (t + n / 10) ∧
    rl'.requests.length ≤ rl.requests_per_minute ∧
    countRecent (t + n / 10 - 1) rl'.requests ≤ rl.burst_limit := by
  intro fuel
  induction fuel with
  | zero =>
    intro rl t rl' n h
    simp [wait_if_needed] at h
  | succ m ih =>
    intro rl t rl' n h
    rw [wait_if_needed_succ] at h
    cases hb : (can_make_request rl t).1 with
    | true =>
      rw [if_pos hb] at h
      have hinj := Option.some.inj h
      have hrl : (can_make_request rl t).2 = rl' := congrArg Prod.fst hinj
      have hn : (0 : ℕ) = n := congrArg Prod.snd hinj
      subst hrl
      subst hn
      simp only [Nat.cast_zero, zero_div, add_zero]
      have hacc := can_make_request_accept_state hb
      refine ⟨?_, hacc.2.1, hacc.2.2⟩
      rw [hacc.1]
      exact List.getLast?_concat _
    | false =>
      rw [if_neg (by rw [hb]; exact Bool.false_ne_true)] at h
      cases hw : wait_if_needed m (can_make_request rl t).2 (t + 1 / 10) with
      | none => rw [hw] at h; exact absurd h (by simp)
      | some p =>
        rw [hw] at h
        obtain ⟨rlF, k⟩ := p
        simp only at h
        have hinj := Option.some.inj h
        have hrl : rlF = rl' := congrArg Prod.fst hinj
        have hn : k + 1 = n := congrArg Prod.snd hinj
        subst hrl
        subst hn
        have hres := ih (can_make_request rl t).2 (t + 1 / 10) hw
        have hcaps := can_make_request_caps rl t
        rw [hcaps.1, hcaps.2] at hres
        have harith : t + 1 / 10 + (k : ℚ) / 10 = t + ((k : ℕ) + 1 : ℕ) / 10 := by
          push_cast
          ring
        rw [harith] at hres
        exact hres

/-- Once enough retries have elapsed that every pre-existing timestamp has
aged out of the minute window, an attempt is accepted (given nonzero caps). -/
lemma wait_if_needed_terminates : ∀ (m : ℕ) (rl : RateLimiter) (t : ℚ),
    1 ≤ rl.requests_per_minute → 1 ≤ rl.burst_limit →
    (∀ s ∈ rl.requests, s + 60 < t + m / 10) →
    (wait_if_needed (m + 1) rl t).isSome = true := by
  intro m
  induction m with
  | zero =>
    intro rl t hrpm hburst hold
    have hnil : evictOld (t - 60) rl.requests = [] := by
      refine evictOld_eq_nil _ _ ?_
      intro s hs
      have := hold s hs
      push_cast at this
      linarith
    have hacc : (can_make_request rl t).1 = true := by
      rw [can_make_request_accept]
      · rw [hnil]
        simp
        omega
      · rw [hnil]
        unfold countRecent
        simp
        omega
    rw [wait_if_needed_accept_first (by omega) hacc]
    rfl
  | succ m ih =>
    intro rl t hrpm hburst hold
    cases hb : (can_make_request rl t).1 with
    | true =>
      rw [wait_if_needed_accept_first (by omega) hb]
      rfl
    | false =>
      have hcaps := can_make_request_caps rl t
      have hnext := ih (can_make_request rl t).2 (t + 1 / 10)
        (by rw [hcaps.1]; exact hrpm) (by rw [hcaps.2]; exact hburst) ?_
      · show (wait_if_needed (m + 1 + 1) rl t).isSome = true
        rw [wait_if_needed_succ]
        rw [if_neg (by rw [hb]; exact Bool.false_ne_true)]
        obtain ⟨p, hp⟩ := Option.isSome_iff_exists.mp hnext
        rw [hp]
        obtain ⟨a, b⟩ := p
        rfl
      · intro s hs
        rw [can_make_request_reject_state hb] at hs
        have hmem : s ∈ rl.requests := (evictOld_sublist _ _).mem hs
        have := hold s hmem
        push_cast at this ⊢
        linarith

/-- With `requests_per_minute = 0` the minute check rejects every attempt,
so the loop never returns: the caller waits indefinitely. -/
lemma wait_if_needed_none_of_zero_cap : ∀ (fuel : ℕ) (rl : RateLimiter) (t : ℚ),
    rl.requests_per_minute = 0 → wait_if_needed fuel rl t = none := by
  intro fuel
  induction fuel with
  | zero => intro rl t _; rfl
  | succ m ih =>
    intro rl t h
    have hrej : (can_make_request rl t).1 = false := by
      rw [can_make_request_minute_reject (by omega)]
    rw [wait_if_needed_succ]
    rw [if_neg (by rw [hrej]; exact Bool.false_ne_true)]
    rw [ih (can_make_request rl t).2 (t + 1 / 10) (by rw [(can_make_request_caps rl t).1]; exact h)]

/-- Claim C9: `wait_if_needed` returns only through an accepted
`can_make_request` call — the returned window records the accepting
attempt's timestamp and satisfies both caps —; retries are spaced at the
fixed 0.1-second interval (attempt `n` happens at `t + n / 10`); with
nonzero caps and all prior timestamps at most `t`, it returns within 602
attempts (capacity must exist by then, since the whole minute window has
aged out); and with a zero minute cap capacity never exists and the loop
never returns, there being no timeout. -/
theorem wait_if_needed_blocks_until_permit (rl : RateLimiter) (t : ℚ)
    (hrpm : 1 ≤ rl.requests_per_minute) (hburst : 1 ≤ rl.burst_limit)
    (hub : ∀ s ∈ rl.requests, s ≤ t) :
    (wait_if_needed 602 rl t).isSome = true ∧
    (∀ (fuel : ℕ) (rl' : RateLimiter) (n : ℕ),
        wait_if_needed fuel rl t = some (rl', n) →
        rl'.requests.getLast? = some (t + (n : ℚ) / 10) ∧
        rl'.requests.length ≤ rl.requests_per_minute ∧
        countRecent (t + (n : ℚ) / 10 - 1) rl'.requests ≤ rl.burst_limit) ∧
    (∀ (fuel : ℕ) (rl0 : RateLimiter) (t0 : ℚ), rl0.requests_per_minute = 0 →
        wait_if_needed fuel rl0 t0 = none) := by
  refine ⟨?_, ?_, ?_⟩
  · have h601 : (602 : ℕ) = 601 + 1 := rfl
    rw [h601]
    refine wait_if_needed_terminates 601 rl t hrpm hburst ?_
    intro s hs
    have := hub s hs
    push_cast
    linarith
  · intro fuel rl' n h
    exact wait_if_needed_result fuel rl t h
  · intro fuel rl0 t0 h
    exact wait_if_needed_none_of_zero_cap fuel rl0 t0 h

/-- Witness for C9 at a fresh limiter with the default caps. -/
theorem wait_if_needed_blocks_until_permit_witness :
    (wait_if_needed 602 (RateLimiter.init 60 10) 0).isSome = true ∧
    (∀ (fuel : ℕ) (rl' : RateLimiter) (n : ℕ),
        wait_if_needed fuel (RateLimiter.init 60 10) 0 = some (rl', n) →
        rl'.requests.getLast? = some (0 + (n : ℚ) / 10) ∧
        rl'.requests.length ≤ (RateLimiter.init 60 10).requests_per_minute ∧
        countRecent (0 + (n : ℚ) / 10 - 1) rl'.requests ≤ (RateLimiter.init 60 10).burst_limit) ∧
    (∀ (fuel : ℕ) (rl0 : RateLimiter) (t0 : ℚ), rl0.requests_per_minute = 0 →
        wait_if_needed fuel rl0 t0 = none) :=
  wait_if_needed_blocks_until_permit (RateLimiter.init 60 10) 0 (by decide) (by decide)
    (by intro s hs; simp [RateLimiter.init] at hs)

/-! ## C7 -/


/-- The locked body keeps the window within the minute cap whenever it
already was within it (it either only evicts, or checks the cap before
appending). -/
lemma can_make_request_len {rl : RateLimiter} (t : ℚ)
    (h : rl.requests.length ≤ rl.requests_per_minute) :
    (can_make_request rl t).2.requests.length ≤ rl.requests_per_minute := by
  by_cases h1 : rl.requests_per_minute ≤ (evictOld (t - 60) rl.requests).length
  · rw [can_make_request_minute_reject h1]
    exact ((evictOld_sublist _ _).length_le).trans h
  by_cases h2 : rl.burst_limit ≤ countRecent (t - 1) (evictOld (t - 60) rl.requests)
  · rw [can_make_request_burst_reject h1 h2]
    exact ((evictOld_sublist _ _).length_le).trans h
  rw [can_make_request_accept h1 h2]
  show (evictOld (t - 60) rl.requests ++ [t]).length ≤ _
  rw [List.length_append, List.length_singleton]
  omega

/-- One scheduled event preserves the minute-cap bound and the configured
cap. -/
lemma stepEv_len (st : TwoCallState) (e : Ev)
    (h : st.rl.requests.length ≤ st.rl.requests_per_minute) :
    (stepEv st e).rl.requests.length ≤ (stepEv st e).rl.requests_per_minute ∧
    (stepEv st e).rl.requests_per_minute = st.rl.requests_per_minute := by
  cases e with
  | aSample => exact ⟨h, rfl⟩
  | bSample => exact ⟨h, rfl⟩
  | aBody =>
    cases hta : st.tA with
    | none =>
      have hst : stepEv st Ev.aBody = st := by simp [stepEv, hta]
      rw [hst]
      exact ⟨h, rfl⟩
    | some t =>
      have hst : stepEv st Ev.aBody =
          { st with rl := (can_make_request st.rl t).2,
                    resA := some (can_make_request st.rl t).1 } := by
        simp [stepEv, hta]
      rw [hst]
      exact ⟨(can_make_request_caps st.rl t).1 ▸ can_make_request_len t h,
        (can_make_request_caps st.rl t).1⟩
  | bBody =>
    cases htb : st.tB with
    | none =>
      have hst : stepEv st Ev.bBody = st := by simp [stepEv, htb]
      rw [hst]
      exact ⟨h, rfl⟩
    | some t =>
      have hst : stepEv st Ev.bBody =
          { st with rl := (can_make_request st.rl t).2,
                    resB := some (can_make_request st.rl t).1 } := by
        simp [stepEv, htb]
      rw [hst]
      exact ⟨(can_make_request_caps st.rl t).1 ▸ can_make_request_len t h,
        (can_make_request_caps st.rl t).1⟩

/-- Folding any event sequence preserves the minute-cap bound. -/
lemma runSched_len : ∀ (sched : List Ev) (st : TwoCallState),
    st.rl.requests.length ≤ st.rl.requests_per_minute →
    (sched.foldl stepEv st).rl.requests.length ≤ (sched.foldl stepEv st).rl.requests_per_minute ∧
    (sched.foldl stepEv st).rl.requests_per_minute = st.rl.requests_per_minute := by
  intro sched
  induction sched with
  | nil => intro st h; exact ⟨h, rfl⟩
  | cons e es ih =>
    intro st h
    have hstep := stepEv_len st e h
    have := ih (stepEv st e) hstep.1
    exact ⟨this.1, this.2.trans hstep.2⟩

/-- Counterexample to claim C7: the clock sample of `can_make_request` is
not inside the critical section.  In the valid two-caller schedule where
both callers sample the clock before either acquires the lock, caller A's
admission decision (rejected: B's later timestamp already fills the burst
window A sees) differs from its decision under both serial executions of
whole calls (admitted in each) — so the five-step sequence, clock sampling
included, is not one atomic critical section. -/
theorem can_make_request_sample_outside_lock :
    validSched [Ev.aSample, Ev.bSample, Ev.bBody, Ev.aBody] ∧
    (runSched (RateLimiter.init 60 1) [1, 2]
        [Ev.aSample, Ev.bSample, Ev.bBody, Ev.aBody]).resA ≠
      (runSched (RateLimiter.init 60 1) [1, 2]
        [Ev.aSample, Ev.aBody, Ev.bSample, Ev.bBody]).resA ∧
    (runSched (RateLimiter.init 60 1) [1, 2]
        [Ev.aSample, Ev.bSample, Ev.bBody, Ev.aBody]).resA ≠
      (runSched (RateLimiter.init 60 1) [1, 2]
        [Ev.bSample, Ev.bBody, Ev.aSample, Ev.aBody]).resA := by
  refine ⟨by decide, ?_, ?_⟩ <;>
    norm_num [runSched, stepEv, can_make_request, evictOld, countRecent, RateLimiter.init]

/-- Amended claim C7: only the evict / minute-check / burst-check / record
sequence runs inside the lock and is atomic with respect to the other
caller; the clock sample happens before the critical section (so an
interleaving need not match any serial order of whole calls); nevertheless,
because check-and-record is a single atomic step, two concurrent callers are
never both admitted on the strength of the same remaining capacity — under
every valid schedule the recorded window never exceeds the minute cap. -/
theorem locked_body_atomic_caps (sched : List Ev) (clock : List ℚ) (rl : RateLimiter)
    (_hv : validSched sched) (h : rl.requests.length ≤ rl.requests_per_minute) :
    (runSched rl clock sched).rl.requests.length ≤ rl.requests_per_minute := by
  have := runSched_len sched { rl := rl, clock := clock } h
  unfold runSched
  rw [← this.2]
  exact this.1

/-- Witness for the amended C7 at the counterexample schedule, one slot of
remaining capacity. -/
theorem locked_body_atomic_caps_witness :
    (runSched (RateLimiter.init 1 1) [1, 2]
        [Ev.aSample, Ev.bSample, Ev.bBody, Ev.aBody]).rl.requests.length ≤ 1 :=
  locked_body_atomic_caps _ _ (RateLimiter.init 1 1) (by decide) (by decide)

/-! ## C1 and C3 -/

/-- When the window has strict room under both caps, a call is accepted and
grows the window by at most one, leaving the caps unchanged. -/
lemma can_make_request_accepts_of_room {rl : RateLimiter} (t : ℚ)
    (h1 : rl.requests.length < rl.requests_per_minute)
    (h2 : rl.requests.length < rl.burst_limit) :
    (can_make_request rl t).1 = true ∧
    (can_make_request rl t).2.requests.length ≤ rl.requests.length + 1 ∧
    (can_make_request rl t).2.requests_per_minute = rl.requests_per_minute ∧
    (can_make_request rl t).2.burst_limit = rl.burst_limit := by
  have hElen : (evictOld (t - 60) rl.requests).length ≤ rl.requests.length :=
    (evictOld_sublist _ _).length_le
  have hcnt : countRecent (t - 1) (evictOld (t - 60) rl.requests) ≤
      (evictOld (t - 60) rl.requests).length := countRecent_le_length _ _
  have hn1 : ¬ rl.requests_per_minute ≤ (evictOld (t - 60) rl.requests).length := by omega
  have hn2 : ¬ rl.burst_limit ≤ countRecent (t - 1) (evictOld (t - 60) rl.requests) := by omega
  rw [can_make_request_accept hn1 hn2]
  refine ⟨rfl, ?_, rfl, rfl⟩
  show (evictOld (t - 60) rl.requests ++ [t]).length ≤ _
  rw [List.length_append, List.length_singleton]
  omega

/-- A limiter gate returns at once when the window has strict room under
both caps. -/
lemma wait_gate (rl : RateLimiter) (t : ℚ) {fuel : ℕ} (hf : 1 ≤ fuel)
    (h1 : rl.requests.length < rl.requests_per_minute)
    (h2 : rl.requests.length < rl.burst_limit) :
    ∃ rl1 : RateLimiter,
      wait_if_needed fuel rl t = some (rl1, 0) ∧
      rl1.requests.length ≤ rl.requests.length + 1 ∧
      rl1.requests_per_minute = rl.requests_per_minute ∧
      rl1.burst_limit = rl.burst_limit := by
  obtain ⟨hacc, hlen, hm, hb⟩ := can_make_request_accepts_of_room t h1 h2
  exact ⟨(can_make_request rl t).2, wait_if_needed_accept_first hf hacc, hlen, hm, hb⟩

/-- The merge never touches `last_updated`. -/
lemma combine_info_last_updated : ∀ (rs : List SourceResult) (pd : PersonData),
    (combine_info pd rs).last_updated = pd.last_updated := by
  intro rs
  induction rs with
  | nil => intro pd; rfl
  | cons r rs ih =>
    intro pd
    simp only [combine_info, List.foldl_cons] at ih ⊢
    exact ih _

/-- A run of `search_person` in which every source fetch returns a response
(whatever its status), from a fresh limiter with both caps at least 4 (one
permit per gate: the umbrella search plus three sources): every gate is
accepted on its first attempt, every source is consulted, the record is
merged — and then the persistence step raises `NameError` (the unbound name
`os`), which propagates: the search returns the exception, never a record. -/
lemma search_person_allok_run (name : String) (fuel : Nat) (t0 t1 t2 t3 : ℚ)
    (rpm burst : Nat) (fs : FS) (s1 s2 s3 : Nat) (hrefs1 hrefs2 hrefs3 : List String)
    (ghParsed scParsed : SourceResult) (now : String)
    (hf : 1 ≤ fuel) (hrpm : 4 ≤ rpm) (hburst : 4 ≤ burst) :
    search_person name fuel t0 t1 t2 t3 (RateLimiter.init rpm burst) fs
        (.ok s1 hrefs1) (.ok s2 hrefs2) (.ok s3 hrefs3) ghParsed scParsed now =
      some (.error (.nameError "os")) := by
  obtain ⟨rl1, hw1, hl1, hm1, hb1⟩ := wait_gate (RateLimiter.init rpm burst) t0 hf
    (by simp [RateLimiter.init]; omega) (by simp [RateLimiter.init]; omega)
  simp only [RateLimiter.init, List.length_nil] at hl1 hm1 hb1
  obtain ⟨rl2, hw2, hl2, hm2, hb2⟩ := wait_gate rl1 t1 hf (by rw [hm1]; omega) (by rw [hb1]; omega)
  rw [hm1] at hm2
  rw [hb1] at hb2
  obtain ⟨rl3, hw3, hl3, hm3, hb3⟩ := wait_gate rl2 t2 hf (by rw [hm2]; omega) (by rw [hb2]; omega)
  rw [hm2] at hm3
  rw [hb2] at hb3
  obtain ⟨rl4, hw4, _, _, _⟩ := wait_gate rl3 t3 hf (by rw [hm3]; omega) (by rw [hb3]; omega)
  simp only [search_person, search_linkedin, source_fetch, hw1, hw2, hw3, hw4]
  rfl

/-- A source fetch that raises is not caught: with the linkedin fetch
raising `e`, `search_person` propagates `e` whatever the remaining sources
would have returned — they are never consulted. -/
lemma search_person_li_raise (name : String) (fuel : Nat) (t0 t1 t2 t3 : ℚ)
    (rpm burst : Nat) (fs : FS) (e : PyErr) (ghOut scOut : FetchOutcome)
    (ghParsed scParsed : SourceResult) (now : String)
    (hf : 1 ≤ fuel) (hrpm : 4 ≤ rpm) (hburst : 4 ≤ burst) :
    search_person name fuel t0 t1 t2 t3 (RateLimiter.init rpm burst) fs
        (.raise e) ghOut scOut ghParsed scParsed now = some (.error e) := by
  obtain ⟨rl1, hw1, hl1, hm1, hb1⟩ := wait_gate (RateLimiter.init rpm burst) t0 hf
    (by simp [RateLimiter.init]; omega) (by simp [RateLimiter.init]; omega)
  simp only [RateLimiter.init, List.length_nil] at hl1 hm1 hb1
  obtain ⟨rl2, hw2, _, _, _⟩ := wait_gate rl1 t1 hf (by rw [hm1]; omega) (by rw [hb1]; omega)
  simp only [search_person, search_linkedin, hw1, hw2]

/-- With the linkedin fetch succeeding (any status) and the github fetch
raising `e`, `search_person` propagates `e`: one source's raised exception
aborts the whole search even after another source already responded. -/
lemma search_person_gh_raise (name : String) (fuel : Nat) (t0 t1 t2 t3 : ℚ)
    (rpm burst : Nat) (fs : FS) (s1 : Nat) (hrefs1 : List String) (e : PyErr)
    (scOut : FetchOutcome) (ghParsed scParsed : SourceResult) (now : String)
    (hf : 1 ≤ fuel) (hrpm : 4 ≤ rpm) (hburst : 4 ≤ burst) :
    search_person name fuel t0 t1 t2 t3 (RateLimiter.init rpm burst) fs
        (.ok s1 hrefs1) (.raise e) scOut ghParsed scParsed now = some (.error e) := by
  obtain ⟨rl1, hw1, hl1, hm1, hb1⟩ := wait_gate (RateLimiter.init rpm burst) t0 hf
    (by simp [RateLimiter.init]; omega) (by simp [RateLimiter.init]; omega)
  simp only [RateLimiter.init, List.length_nil] at hl1 hm1 hb1
  obtain ⟨rl2, hw2, hl2, hm2, hb2⟩ := wait_gate rl1 t1 hf (by rw [hm1]; omega) (by rw [hb1]; omega)
  rw [hm1] at hm2
  rw [hb1] at hb2
  obtain ⟨rl3, hw3, _, _, _⟩ := wait_gate rl2 t2 hf (by rw [hm2]; omega) (by rw [hb2]; omega)
  simp only [search_person, search_linkedin, source_fetch, hw1, hw2, hw3]

/-- With the first two source fetches returning responses of any status and
the scholar fetch raising `e`, `search_person` propagates `e`: an earlier
non-success status did not abort the pipeline — the later source still ran. -/
lemma search_person_sc_raise (name : String) (fuel : Nat) (t0 t1 t2 t3 : ℚ)
    (rpm burst : Nat) (fs : FS) (s1 s2 : Nat) (hrefs1 hrefs2 : List String) (e : PyErr)
    (ghParsed scParsed : SourceResult) (now : String)
    (hf : 1 ≤ fuel) (hrpm : 4 ≤ rpm) (hburst : 4 ≤ burst) :
    search_person name fuel t0 t1 t2 t3 (RateLimiter.init rpm burst) fs
        (.ok s1 hrefs1) (.ok s2 hrefs2) (.raise e) ghParsed scParsed now =
      some (.error e) := by
  obtain ⟨rl1, hw1, hl1, hm1, hb1⟩ := wait_gate (RateLimiter.init rpm burst) t0 hf
    (by simp [RateLimiter.init]; omega) (by simp [RateLimiter.init]; omega)
  simp only [RateLimiter.init, List.length_nil] at hl1 hm1 hb1
  obtain ⟨rl2, hw2, hl2, hm2, hb2⟩ := wait_gate rl1 t1 hf (by rw [hm1]; omega) (by rw [hb1]; omega)
  rw [hm1] at hm2
  rw [hb1] at hb2
  obtain ⟨rl3, hw3, hl3, hm3, hb3⟩ := wait_gate rl2 t2 hf (by rw [hm2]; omega) (by rw [hb2]; omega)
  rw [hm2] at hm3
  rw [hb2] at hb3
  obtain ⟨rl4, hw4, _, _, _⟩ := wait_gate rl3 t3 hf (by rw [hm3]; omega) (by rw [hb3]; omega)
  simp only [search_person, search_linkedin, source_fetch, hw1, hw2, hw3, hw4]

/-- A non-success status contributes no fields: `search_linkedin` returns
the empty result set on any non-200 response (crawler.py lines 151-157). -/
lemma search_linkedin_non2xx (fuel : Nat) (t : ℚ) (rl : RateLimiter)
    (s : Nat) (hrefs : List String) (hf : 1 ≤ fuel)
    (h1 : rl.requests.length < rl.requests_per_minute)
    (h2 : rl.requests.length < rl.burst_limit) (hs : s ≠ 200) :
    ∃ rl1 : RateLimiter,
      search_linkedin fuel t rl (.ok s hrefs) = some (.ok (rl1, {})) := by
  obtain ⟨rl1, hw, _, _, _⟩ := wait_gate rl t hf h1 h2
  refine ⟨rl1, ?_⟩
  simp only [search_linkedin, hw, if_neg hs]

/-- Counterexample to claim C1: with a perfectly valid name, a linkedin
fetch that raises aborts the whole search — `search_person` propagates the
exception instead of returning a record, and the remaining sources are never
consulted (their outcomes are irrelevant to the result). -/
theorem search_person_raise_aborts_counterexample :
    search_person "Jane Doe" 1 0 0 0 0 (RateLimiter.init 60 10) (fun _ => none)
        (.raise .connectionError) (.ok 200 []) (.ok 200 []) {} {}
        "2024-01-01T00:00:00" = some (.error .connectionError) :=
  search_person_li_raise "Jane Doe" 1 0 0 0 0 60 10 (fun _ => none) .connectionError
    (.ok 200 []) (.ok 200 []) {} {} "2024-01-01T00:00:00"
    (by decide) (by decide) (by decide)

/-- Amended claim C1: the name is never validated, and `search_person` never
returns a record for any name.  A source lookup returning a non-success
status is recovered locally — it contributes no fields and the remaining
sources still run — but a source lookup that raises propagates its exception,
aborting the remaining sources and the overall search; and even when every
source lookup succeeds, the persistence step unconditionally raises
`NameError` (crawler.py never imports `os`) and that exception propagates to
the caller in place of the record. -/
theorem search_person_source_isolation (name : String) (fuel : Nat) (t0 t1 t2 t3 : ℚ)
    (rpm burst : Nat) (fs : FS) (s1 s2 s3 : Nat) (hrefs1 hrefs2 hrefs3 : List String)
    (ghParsed scParsed : SourceResult) (now : String) (e : PyErr)
    (hf : 1 ≤ fuel) (hrpm : 4 ≤ rpm) (hburst : 4 ≤ burst) :
    (search_person name fuel t0 t1 t2 t3 (RateLimiter.init rpm burst) fs
        (.ok s1 hrefs1) (.ok s2 hrefs2) (.ok s3 hrefs3) ghParsed scParsed now =
      some (.error (.nameError "os"))) ∧
    (s1 ≠ 200 → ∃ rl1 : RateLimiter,
        search_linkedin fuel t1 (RateLimiter.init rpm burst) (.ok s1 hrefs1) =
          some (.ok (rl1, {}))) ∧
    (∀ (ghOut scOut : FetchOutcome),
        search_person name fuel t0 t1 t2 t3 (RateLimiter.init rpm burst) fs
            (.raise e) ghOut scOut ghParsed scParsed now = some (.error e)) ∧
    (∀ scOut : FetchOutcome,
        search_person name fuel t0 t1 t2 t3 (RateLimiter.init rpm burst) fs
            (.ok s1 hrefs1) (.raise e) scOut ghParsed scParsed now = some (.error e)) ∧
    (search_person name fuel t0 t1 t2 t3 (RateLimiter.init rpm burst) fs
        (.ok s1 hrefs1) (.ok s2 hrefs2) (.raise e) ghParsed scParsed now =
      some (.error e)) := by
  refine ⟨?_, ?_, ?_, ?_, ?_⟩
  · exact search_person_allok_run name fuel t0 t1 t2 t3 rpm burst fs s1 s2 s3
      hrefs1 hrefs2 hrefs3 ghParsed scParsed now hf hrpm hburst
  · intro hs
    exact search_linkedin_non2xx fuel t1 (RateLimiter.init rpm burst) s1 hrefs1 hf
      (by simp [RateLimiter.init]; omega) (by simp [RateLimiter.init]; omega) hs
  · intro ghOut scOut
    exact search_person_li_raise name fuel t0 t1 t2 t3 rpm burst fs e ghOut scOut
      ghParsed scParsed now hf hrpm hburst
  · intro scOut
    exact search_person_gh_raise name fuel t0 t1 t2 t3 rpm burst fs s1 hrefs1 e scOut
      ghParsed scParsed now hf hrpm hburst
  · exact search_person_sc_raise name fuel t0 t1 t2 t3 rpm burst fs s1 s2 hrefs1 hrefs2 e
      ghParsed scParsed now hf hrpm hburst

/-- Witness for the amended C1 at concrete inputs (github answering 500,
exhibiting the recovered non-success status). -/
theorem search_person_source_isolation_witness :
    (search_person "Jane Doe" 1 0 0 0 0 (RateLimiter.init 60 10) (fun _ => none)
        (.ok 500 []) (.ok 200 []) (.ok 200 []) {} {} "2024-01-01T00:00:00" =
      some (.error (.nameError "os"))) ∧
    ((500 : Nat) ≠ 200 → ∃ rl1 : RateLimiter,
        search_linkedin 1 0 (RateLimiter.init 60 10) (.ok 500 []) =
          some (.ok (rl1, {}))) ∧
    (∀ (ghOut scOut : FetchOutcome),
        search_person "Jane Doe" 1 0 0 0 0 (RateLimiter.init 60 10) (fun _ => none)
            (.raise .connectionError) ghOut scOut {} {} "2024-01-01T00:00:00" =
          some (.error .connectionError)) ∧
    (∀ scOut : FetchOutcome,
        search_person "Jane Doe" 1 0 0 0 0 (RateLimiter.init 60 10) (fun _ => none)
            (.ok 500 []) (.raise .connectionError) scOut {} {} "2024-01-01T00:00:00" =
          some (.error .connectionError)) ∧
    (search_person "Jane Doe" 1 0 0 0 0 (RateLimiter.init 60 10) (fun _ => none)
        (.ok 500 []) (.ok 200 []) (.raise .connectionError) {} {} "2024-01-01T00:00:00" =
      some (.error .connectionError)) :=
  search_person_source_isolation "Jane Doe" 1 0 0 0 0 60 10 (fun _ => none)
    500 200 200 [] [] [] {} {} "2024-01-01T00:00:00" .connectionError
    (by decide) (by decide) (by decide)

/-- Every link surviving sanitization passed the privacy filter. -/
lemma sanitize_data_links_safe (d : PersonData) (now : String) :
    ((sanitize_data d now).public_links.getD []).all is_safe_link = true := by
  simp only [sanitize_data, Option.getD_some, List.all_eq_true]
  intro link hlink
  exact (List.mem_filter.mp hlink).2

/-- Counterexample to claim C3: a concrete search in which every source
fetch succeeds returns no record at all — `search_person` propagates the
`NameError` that persistence raises (the unbound name `os`) — so no
sanitized, stamped record is returned, and the outcome of persistence is
precisely what reaches the caller. -/
theorem search_person_no_record_counterexample :
    search_person "Jane Doe" 1 0 0 0 0 (RateLimiter.init 60 10) (fun _ => none)
        (.ok 200 ["linkedin.com/in/jane"]) (.ok 200 []) (.ok 200 []) {} {}
        "2024-01-01T00:00:00" = some (.error (.nameError "os")) :=
  search_person_allok_run "Jane Doe" 1 0 0 0 0 60 10 (fun _ => none)
    200 200 200 ["linkedin.com/in/jane"] [] [] {} {} "2024-01-01T00:00:00"
    (by decide) (by decide) (by decide)

/-- Amended claim C3: `search_person` never returns a record: even with
every source succeeding, the persistence step raises `NameError` (crawler.py
never imports `os`) and the exception propagates to the caller — the search
result is the persistence failure, not a record returned regardless of it.
Sanitization and stamping exist only in the copy `sanitize_data` builds for
`save_person_data` to store: that copy has every link passing `is_safe_link`
and `last_updated` set to the persistence-time clock, while the merge on the
record `search_person` would return (crawler.py line 142) never stamps
`last_updated` at all. -/
theorem search_person_returns_no_sanitized_record (name : String) (fuel : Nat)
    (t0 t1 t2 t3 : ℚ) (rpm burst : Nat) (fs : FS) (s1 s2 s3 : Nat)
    (hrefs1 hrefs2 hrefs3 : List String) (ghParsed scParsed : SourceResult) (now : String)
    (hf : 1 ≤ fuel) (hrpm : 4 ≤ rpm) (hburst : 4 ≤ burst) :
    (search_person name fuel t0 t1 t2 t3 (RateLimiter.init rpm burst) fs
        (.ok s1 hrefs1) (.ok s2 hrefs2) (.ok s3 hrefs3) ghParsed scParsed now =
      some (.error (.nameError "os"))) ∧
    (∀ (d : PersonData) (now2 : String),
        (sanitize_data d now2).last_updated = some now2 ∧
        ((sanitize_data d now2).public_links.getD []).all is_safe_link = true) ∧
    (∀ (rs : List SourceResult) (pd : PersonData),
        (combine_info pd rs).last_updated = pd.last_updated) := by
  refine ⟨?_, ?_, combine_info_last_updated⟩
  · exact search_person_allok_run name fuel t0 t1 t2 t3 rpm burst fs s1 s2 s3
      hrefs1 hrefs2 hrefs3 ghParsed scParsed now hf hrpm hburst
  · intro d now2
    exact ⟨rfl, sanitize_data_links_safe d now2⟩

/-- Witness for the amended C3 at concrete inputs. -/
theorem search_person_returns_no_sanitized_record_witness :
    (search_person "Jane Doe" 1 0 0 0 0 (RateLimiter.init 60 10) (fun _ => none)
        (.ok 200 ["linkedin.com/in/jane"]) (.ok 200 []) (.ok 200 []) {} {}
        "2024-01-01T00:00:00" = some (.error (.nameError "os"))) ∧
    (∀ (d : PersonData) (now2 : String),
        (sanitize_data d now2).last_updated = some now2 ∧
        ((sanitize_data d now2).public_links.getD []).all is_safe_link = true) ∧
    (∀ (rs : List SourceResult) (pd : PersonData),
        (combine_info pd rs).last_updated = pd.last_updated) :=
  search_person_returns_no_sanitized_record "Jane Doe" 1 0 0 0 0 60 10 (fun _ => none)
    200 200 200 ["linkedin.com/in/jane"] [] [] {} {} "2024-01-01T00:00:00"
    (by decide) (by decide) (by decide)
